import Mathlib

/-!
Shallow embedding of the 3D solar-system block (src/src/block.tsx).

The component is a React/three.js scene: a fixed table of eight planets,
per-frame callbacks that set or increment rotation angles, a control panel
driving two pieces of view state, and a one-shot completion broadcast
scheduled 2000 ms after mount. Real-valued quantities are embedded as
rationals; each per-frame callback becomes a pure state transition, and a
render pass becomes a pure function from view state to a scene description.
-/

namespace SolarSystem

/-- Entry of the hard-coded planet table (name, size, distance, color,
speed), one per planet, mirroring the `planetData` array literal. -/
structure PlanetSpec where
  name : String
  size : ℚ
  distance : ℚ
  color : String
  speed : ℚ
deriving DecidableEq

/-- The hard-coded `planetData` table, Mercury through Neptune. -/
def planetData : List PlanetSpec :=
  [ { name := "Mercury", size := 0.1, distance := 2, color := "#8C7853", speed := 0.02 },
    { name := "Venus", size := 0.15, distance := 3, color := "#FFC649", speed := 0.015 },
    { name := "Earth", size := 0.16, distance := 4, color := "#6B93D6", speed := 0.01 },
    { name := "Mars", size := 0.12, distance := 5, color := "#CD5C5C", speed := 0.008 },
    { name := "Jupiter", size := 0.5, distance := 7, color := "#D8CA9D", speed := 0.005 },
    { name := "Saturn", size := 0.4, distance := 9, color := "#FAD5A5", speed := 0.004 },
    { name := "Uranus", size := 0.25, distance := 11, color := "#4FD0E7", speed := 0.003 },
    { name := "Neptune", size := 0.24, distance := 13, color := "#4B70DD", speed := 0.002 } ]

/-- Mutable visual state held by one `Planet` component instance: the
rotation angle of the orbital pivot group (`planetRef.rotation.y`), the
spin angle of the body mesh (`meshRef.rotation.y`), and the orbit-line
ring geometry radii, which the component creates once in its JSX. -/
structure PlanetState where
  pivotAngle : ℚ
  spinAngle : ℚ
  orbitRingInner : ℚ
  orbitRingOuter : ℚ
deriving DecidableEq

/-- Initial visual state of a `Planet` instance rendered at a given
orbital distance: angles start at zero, and the orbit-line ring is built
with radii `distance - 0.01` and `distance + 0.01`. -/
def initPlanetState (distance : ℚ) : PlanetState :=
  { pivotAngle := 0
    spinAngle := 0
    orbitRingInner := distance - 0.01
    orbitRingOuter := distance + 0.01 }

/-- One `useFrame` callback of the `Planet` component, with `speed` the
speed prop received from the root and `t` the clock's elapsed time:
`planetRef.current.rotation.y = clock.getElapsedTime() * speed` and
`meshRef.current.rotation.y += 0.02`. -/
def planetFrame (speed t : ℚ) (s : PlanetState) : PlanetState :=
  { s with
    pivotAngle := t * speed
    spinAngle := s.spinAngle + 0.02 }

/-- Run a sequence of frame callbacks on a `Planet` instance whose base
table speed is `baseSpeed`; each frame supplies the clock's elapsed time
and the animation-speed multiplier current at that frame, the root passing
`speed := baseSpeed * multiplier` as the speed prop. -/
def planetRun (baseSpeed : ℚ) (frames : List (ℚ × ℚ)) (s : PlanetState) : PlanetState :=
  frames.foldl (fun st f => planetFrame (baseSpeed * f.2) f.1 st) s

/-- One `useFrame` callback of the `Sun` component:
`sunRef.current.rotation.y += 0.01`. -/
def sunFrame (a : ℚ) : ℚ := a + 0.01

/-- Run `n` frame callbacks of the `Sun` component from spin angle `a`. -/
def sunRun : ℕ → ℚ → ℚ
  | 0, a => a
  | n + 1, a => sunRun n (sunFrame a)

/-- Mutable visual state of the `SaturnRings` component: the rotation
angle of its pivot group (`ringsRef.rotation.y`). -/
structure RingsState where
  angle : ℚ
deriving DecidableEq

/-- One `useFrame` callback of the `SaturnRings` component:
`ringsRef.current.rotation.y = clock.getElapsedTime() * 0.004`. -/
def ringsFrame (t : ℚ) (_s : RingsState) : RingsState :=
  { angle := t * 0.004 }

/-- View state owned by the root `Block` component:
`animationSpeed` and `showOrbits`, held in two `useState` hooks. -/
structure ViewState where
  animationSpeed : ℚ
  showOrbits : Bool
deriving DecidableEq

/-- Initial view state: `useState(1)` and `useState(true)`. -/
def initialViewState : ViewState :=
  { animationSpeed := 1, showOrbits := true }

/-- The slider's `onChange` handler:
`setAnimationSpeed(parseFloat(e.target.value))` stores the parsed value
unchanged in the root state. -/
def handleSpeedChange (v : ℚ) (s : ViewState) : ViewState :=
  { s with animationSpeed := v }

/-- The checkbox's `onChange` handler:
`setShowOrbits(e.target.checked)`. -/
def handleOrbitsToggle (b : Bool) (s : ViewState) : ViewState :=
  { s with showOrbits := b }

/-- Props of one rendered `Planet` element together with the orbit-line
geometry it creates: the root passes the table entry's fields and
`speed := planet.speed * animationSpeed`. -/
structure RenderedPlanet where
  name : String
  size : ℚ
  distance : ℚ
  color : String
  speed : ℚ
  orbitRingInner : ℚ
  orbitRingOuter : ℚ
deriving DecidableEq

/-- Props of one rendered `SaturnRings` element: the root passes only the
host entry's `distance`. -/
structure RenderedRings where
  distance : ℚ
deriving DecidableEq

/-- The scene content of the `Canvas` produced by one render pass of the
root component: one `Sun`, the mapped `Planet` elements, and the
conditionally rendered `SaturnRings` elements. -/
structure CanvasScene where
  sunCount : ℕ
  planets : List RenderedPlanet
  ringAccessories : List RenderedRings
deriving DecidableEq

/-- Rendering of one table entry as a `Planet` element:
`speed={planet.speed * animationSpeed}`, other props copied, and the
orbit-line ring geometry `ringGeometry args={[distance - 0.01, distance + 0.01, 64]}`. -/
def renderPlanet (v : ViewState) (p : PlanetSpec) : RenderedPlanet :=
  { name := p.name
    size := p.size
    distance := p.distance
    color := p.color
    speed := p.speed * v.animationSpeed
    orbitRingInner := p.distance - 0.01
    orbitRingOuter := p.distance + 0.01 }

/-- One render pass of the `Canvas` scene: `<Sun />`, then
`planetData.map` producing a `Planet` per entry and, inside each
fragment, `planet.name === "Saturn" && <SaturnRings distance={planet.distance} />`. -/
def renderCanvas (v : ViewState) : CanvasScene :=
  { sunCount := 1
    planets := planetData.map (renderPlanet v)
    ringAccessories :=
      planetData.filterMap fun p =>
        if p.name = "Saturn" then some { distance := p.distance } else none }

/-- The control panel as rendered from the current view state: the range
input has `min="0" max="5" step="0.1" value={animationSpeed}` and the
checkbox has `checked={showOrbits}`. -/
structure ControlPanelView where
  sliderValue : ℚ
  sliderMin : ℚ
  sliderMax : ℚ
  sliderStep : ℚ
  checkboxChecked : Bool
deriving DecidableEq

/-- Render pass of the `ControlPanel` component from the root state. -/
def renderControlPanel (v : ViewState) : ControlPanelView :=
  { sliderValue := v.animationSpeed
    sliderMin := 0
    sliderMax := 5
    sliderStep := 0.1
    checkboxChecked := v.showOrbits }

/-- One full render pass of the root `Block` component. -/
structure BlockView where
  controlPanel : ControlPanelView
  canvas : CanvasScene
deriving DecidableEq

/-- Render the root component: control panel overlay plus canvas scene. -/
def renderBlock (v : ViewState) : BlockView :=
  { controlPanel := renderControlPanel v, canvas := renderCanvas v }

/-- Payload of the completion broadcast. -/
structure CompletionMsg where
  type : String
  blockId : String
  completed : Bool
deriving DecidableEq

/-- The message posted by the mount effect's timer callback. -/
def completionMessage : CompletionMsg :=
  { type := "BLOCK_COMPLETION", blockId := "solar-system-3d", completed := true }

/-- Delay of the `setTimeout` scheduled in the mount effect, in ms. -/
def completionDelay : ℚ := 2000

/-- Destination of a `postMessage` call: the current window or the
embedding parent window. -/
inductive PostTarget where
  | window
  | parentWindow
deriving DecidableEq

/-- Semantics of the mount effect's timer: `setTimeout(..., 2000)` is
scheduled at mount and the cleanup `clearTimeout(timer)` runs at unmount,
so the pending callback fires iff the component is still mounted when the
delay elapses. `unmountAt` is the unmount time relative to mount
(`none` when the component stays mounted throughout). -/
def timerFires (unmountAt : Option ℚ) : Bool :=
  match unmountAt with
  | none => true
  | some u => decide (completionDelay ≤ u)

/-- The completion broadcasts emitted over a whole mount/unmount
lifetime, each as (time after mount, payload): the single timer callback,
when it fires, emits one broadcast of `completionMessage`. -/
def completionBroadcasts (unmountAt : Option ℚ) : List (ℚ × CompletionMsg) :=
  if timerFires unmountAt then [(completionDelay, completionMessage)] else []

/-- The individual `postMessage` calls performed over a lifetime: the
timer callback posts the payload to `window` and to `window.parent`. -/
def completionPosts (unmountAt : Option ℚ) : List (ℚ × PostTarget × CompletionMsg) :=
  if timerFires unmountAt then
    [(completionDelay, PostTarget.window, completionMessage),
     (completionDelay, PostTarget.parentWindow, completionMessage)]
  else []

/-- Running the frames `h ++ [(t, m)]` is running `h` and then one frame
at elapsed time `t` with multiplier `m`. -/
theorem planetRun_append_single (baseSpeed : ℚ) (s : PlanetState)
    (h : List (ℚ × ℚ)) (t m : ℚ) :
    planetRun baseSpeed (h ++ [(t, m)]) s =
      planetFrame (baseSpeed * m) t (planetRun baseSpeed h s) := by
  simp [planetRun, List.foldl_append]

/-- C1: after any frame history whose final frame has elapsed time `t`
and multiplier `m` with `t ≥ 0` and `m ∈ [0,5]`, the orbital pivot angle
equals `t * baseSpeed * m`, a pure function of the current time and
multiplier, independent of the earlier history of multiplier values. -/
theorem orbital_angle_pure (baseSpeed : ℚ) (init : PlanetState)
    (h : List (ℚ × ℚ)) (t m : ℚ)
    (_ht : 0 ≤ t) (_hm0 : 0 ≤ m) (_hm5 : m ≤ 5) :
    (planetRun baseSpeed (h ++ [(t, m)]) init).pivotAngle = t * baseSpeed * m := by
  rw [planetRun_append_single]
  simp [planetFrame]
  ring

/-- Witness for C1 at a concrete history: base speed 0.02 (Mercury), one
earlier frame at time 1 with multiplier 1, final frame at time 3 with
multiplier 2. -/
theorem orbital_angle_pure_witness :
    (0 : ℚ) ≤ 3 ∧ (0 : ℚ) ≤ 2 ∧ (2 : ℚ) ≤ 5 ∧
      (planetRun 0.02 ([(1, 1)] ++ [(3, 2)]) (initPlanetState 2)).pivotAngle
        = 3 * 0.02 * 2 :=
  ⟨by norm_num, by norm_num, by norm_num,
    orbital_angle_pure 0.02 (initPlanetState 2) [(1, 1)] 3 2
      (by norm_num) (by norm_num) (by norm_num)⟩

/-- C10: the orbital angle is recomputed absolutely each frame, so a
frame at time `t` with multiplier `mp` after any history yields angle
`t * baseSpeed * mp`; two runs identical except for the final frame's
multiplier jump between `t * baseSpeed * m` and `t * baseSpeed * mp`,
and in particular a final frame with multiplier 0 puts the pivot at
angle 0, the initial reference position. -/
theorem multiplier_change_jumps (baseSpeed : ℚ) (init : PlanetState)
    (h : List (ℚ × ℚ)) (t m mp : ℚ) :
    (planetRun baseSpeed (h ++ [(t, m)]) init).pivotAngle = t * baseSpeed * m ∧
    (planetRun baseSpeed (h ++ [(t, mp)]) init).pivotAngle = t * baseSpeed * mp ∧
    (planetRun baseSpeed (h ++ [(t, 0)]) init).pivotAngle = 0 := by
  refine ⟨?_, ?_, ?_⟩
  · rw [planetRun_append_single]
    simp [planetFrame]
    ring
  · rw [planetRun_append_single]
    simp [planetFrame]
    ring
  · rw [planetRun_append_single]
    simp [planetFrame]

/-- Spin angle after a run: each frame adds exactly 0.02. -/
theorem planetRun_spinAngle (baseSpeed : ℚ) (frames : List (ℚ × ℚ))
    (s : PlanetState) :
    (planetRun baseSpeed frames s).spinAngle =
      s.spinAngle + (frames.length : ℚ) * 0.02 := by
  induction frames generalizing s with
  | nil => simp [planetRun]
  | cons f rest ih =>
    simp only [planetRun, List.foldl_cons] at *
    rw [ih]
    simp [planetFrame]
    ring

/-- Sun spin after `n` frames: each frame adds exactly 0.01. -/
theorem sunRun_eq (n : ℕ) (a : ℚ) : sunRun n a = a + (n : ℕ) * 0.01 := by
  induction n generalizing a with
  | zero => simp [sunRun]
  | succ k ih =>
    simp only [sunRun, sunFrame]
    rw [ih]
    push_cast
    ring

/-- C7: a body's spin advances by a fixed constant per rendered frame —
0.02 for a planet and 0.01 for the Sun — so after `n` frame callbacks the
spin angle is the initial value plus `n` times that constant, whatever
the frames' elapsed times and multiplier values were. -/
theorem spin_fixed_per_frame (baseSpeed : ℚ) (init : PlanetState)
    (frames : List (ℚ × ℚ)) (n : ℕ) (a : ℚ) :
    (planetRun baseSpeed frames init).spinAngle =
        init.spinAngle + (frames.length : ℚ) * 0.02 ∧
      sunRun n a = a + (n : ℚ) * 0.01 :=
  ⟨planetRun_spinAngle baseSpeed frames init, sunRun_eq n a⟩

/-- C8: the Saturn-rings pivot angle after a frame at elapsed time `t` is
`t * 0.004` whatever the prior rings state; the rendered `SaturnRings`
element receives no speed prop at all (only `distance`), so the scene
rendered with any two view states passes it identical props, while the
Saturn `Planet` instance's pivot is set to `t * (0.004 * m)` and so does
follow the multiplier. -/
theorem rings_pivot_decoupled (s s2 : RingsState) (ps : PlanetState)
    (t m : ℚ) (v v2 : ViewState) :
    (ringsFrame t s).angle = t * 0.004 ∧
    ringsFrame t s = ringsFrame t s2 ∧
    (renderCanvas v).ringAccessories = (renderCanvas v2).ringAccessories ∧
    (planetFrame (0.004 * m) t ps).pivotAngle = t * (0.004 * m) := by
  refine ⟨rfl, rfl, ?_, rfl⟩
  rfl

/-- C9: the orbit-line ring is stateless across frames — the `Planet`
frame callback changes only the pivot angle and the body-mesh spin angle,
leaving the ring geometry untouched — and each render pass gives the ring
of a body at distance `d` inner radius `d - 0.01` and outer radius
`d + 0.01`. -/
theorem orbit_ring_static (sp t : ℚ) (s : PlanetState) (v : ViewState)
    (p : PlanetSpec) :
    (planetFrame sp t s).orbitRingInner = s.orbitRingInner ∧
    (planetFrame sp t s).orbitRingOuter = s.orbitRingOuter ∧
    (initPlanetState p.distance).orbitRingInner = p.distance - 0.01 ∧
    (initPlanetState p.distance).orbitRingOuter = p.distance + 0.01 ∧
    (renderPlanet v p).orbitRingInner = p.distance - 0.01 ∧
    (renderPlanet v p).orbitRingOuter = p.distance + 0.01 :=
  ⟨rfl, rfl, rfl, rfl, rfl, rfl⟩

/-- C2: for a component that stays mounted throughout, the completion
broadcast of `{type: BLOCK_COMPLETION, blockId: solar-system-3d,
completed: true}` is emitted exactly once, 2000 ms after mount, posted to
both the window and its parent; for a component unmounted strictly before
2000 ms, zero broadcasts and zero posts occur, the cleanup having
cancelled the pending timer. -/
theorem completion_broadcast_exactly_once (u : ℚ) (hu : u < 2000) :
    completionBroadcasts none = [(2000, completionMessage)] ∧
    completionPosts none =
      [(2000, PostTarget.window, completionMessage),
       (2000, PostTarget.parentWindow, completionMessage)] ∧
    completionMessage =
      { type := "BLOCK_COMPLETION", blockId := "solar-system-3d", completed := true } ∧
    completionBroadcasts (some u) = [] ∧
    completionPosts (some u) = [] := by
  have hf : timerFires (some u) = false := by
    simp [timerFires, completionDelay]
    linarith
  refine ⟨rfl, rfl, rfl, ?_, ?_⟩
  · simp [completionBroadcasts, hf]
  · simp [completionPosts, hf]

/-- Witness for C2 at unmount time 500 ms. -/
theorem completion_broadcast_exactly_once_witness :
    (500 : ℚ) < 2000 ∧
      (completionBroadcasts none = [(2000, completionMessage)] ∧
       completionPosts none =
         [(2000, PostTarget.window, completionMessage),
          (2000, PostTarget.parentWindow, completionMessage)] ∧
       completionMessage =
         { type := "BLOCK_COMPLETION", blockId := "solar-system-3d", completed := true } ∧
       completionBroadcasts (some 500) = [] ∧
       completionPosts (some 500) = []) :=
  ⟨by norm_num, completion_broadcast_exactly_once 500 (by norm_num)⟩

/-- C3: for any two view states that agree on the animation speed, the
rendered canvas scene — planets, orbit rings, Saturn rings, sun — is
identical whatever the `showOrbits` flag is; the flag reaches only the
control panel checkbox, whose checked state always mirrors it. -/
theorem show_orbits_inert (v v2 : ViewState)
    (h : v.animationSpeed = v2.animationSpeed) :
    renderCanvas v = renderCanvas v2 ∧
    (renderControlPanel v).checkboxChecked = v.showOrbits ∧
    (renderControlPanel v2).checkboxChecked = v2.showOrbits := by
  obtain ⟨a, b⟩ := v
  obtain ⟨a2, b2⟩ := v2
  simp only [ViewState.mk.injEq] at h ⊢
  subst h
  exact ⟨rfl, rfl, rfl⟩

/-- Witness for C3: multiplier 1 with the flag true versus false. -/
theorem show_orbits_inert_witness :
    ViewState.animationSpeed { animationSpeed := 1, showOrbits := true } =
        ViewState.animationSpeed { animationSpeed := 1, showOrbits := false } ∧
      (renderCanvas { animationSpeed := 1, showOrbits := true } =
         renderCanvas { animationSpeed := 1, showOrbits := false } ∧
       (renderControlPanel { animationSpeed := 1, showOrbits := true }).checkboxChecked
           = true ∧
       (renderControlPanel { animationSpeed := 1, showOrbits := false }).checkboxChecked
           = false) :=
  ⟨rfl, show_orbits_inert
    { animationSpeed := 1, showOrbits := true }
    { animationSpeed := 1, showOrbits := false } rfl⟩

/-- C4: every render pass yields exactly 8 planet elements and 1 sun,
the planets mapped from the fixed table in the stable order Mercury,
Venus, Earth, Mars, Jupiter, Saturn, Uranus, Neptune, with each rendered
name equal to its table entry's name. -/
theorem scene_body_census (v : ViewState) :
    (renderCanvas v).planets.length = 8 ∧
    (renderCanvas v).sunCount = 1 ∧
    (renderCanvas v).planets.map RenderedPlanet.name =
      ["Mercury", "Venus", "Earth", "Mars",
       "Jupiter", "Saturn", "Uranus", "Neptune"] ∧
    planetData.map PlanetSpec.name =
      ["Mercury", "Venus", "Earth", "Mars",
       "Jupiter", "Saturn", "Uranus", "Neptune"] := by
  obtain ⟨a, b⟩ := v
  refine ⟨rfl, rfl, rfl, rfl⟩

/-- C5: exactly one ring-accessory element is rendered per scene pass;
its distance prop is that of the unique table entry whose name is
"Saturn" (distance 9), and no other entry contributes one. -/
theorem saturn_rings_unique (v : ViewState) :
    (renderCanvas v).ringAccessories = [{ distance := 9 }] ∧
    (renderCanvas v).ringAccessories.length = 1 ∧
    (planetData.filter fun p => p.name == "Saturn").map PlanetSpec.distance = [9] ∧
    (planetData.filter fun p => p.name == "Saturn").length = 1 := by
  obtain ⟨a, b⟩ := v
  refine ⟨rfl, rfl, by decide, by decide⟩

/-- C6: the slider handler stores the incoming value `v ∈ [0,5]` exactly
as the new animation-speed multiplier in the root state — no clamping or
rounding — leaves the orbit flag unchanged, and the next control-panel
render shows that exact value. -/
theorem slider_updates_exact (v : ℚ) (st : ViewState)
    (_h0 : 0 ≤ v) (_h5 : v ≤ 5) :
    (handleSpeedChange v st).animationSpeed = v ∧
    (handleSpeedChange v st).showOrbits = st.showOrbits ∧
    (renderControlPanel (handleSpeedChange v st)).sliderValue = v :=
  ⟨rfl, rfl, rfl⟩

/-- Witness for C6 at slider value 3.7 on the initial state. -/
theorem slider_updates_exact_witness :
    (0 : ℚ) ≤ 3.7 ∧ (3.7 : ℚ) ≤ 5 ∧
      ((handleSpeedChange 3.7 initialViewState).animationSpeed = 3.7 ∧
       (handleSpeedChange 3.7 initialViewState).showOrbits =
         initialViewState.showOrbits ∧
       (renderControlPanel (handleSpeedChange 3.7 initialViewState)).sliderValue
         = 3.7) :=
  ⟨by norm_num, by norm_num,
    slider_updates_exact 3.7 initialViewState (by norm_num) (by norm_num)⟩

end SolarSystem
